import Mathlib

/-!
Shallow embedding of the session/connection multiplexing core of the
waServer repository (src/waWSserver.js, src/waLogic.js, src/waIntegration.js),
together with theorems settling the frozen claims about it.

Conventions of the embedding:
* JavaScript objects sent over the wire are modelled as ordered field lists
  (`OutMsg = List (String × JVal)`); `JVal.jundefined` models the JavaScript
  value `undefined` (a field can be present with value `undefined`).
* JavaScript's falsiness of `""`, `null`/`undefined` on string fields is
  modelled explicitly where the source relies on it.
* Message timestamps are the backend's unix-seconds numbers, modelled as `Nat`
  (the source multiplies by 1000 to compare in milliseconds).  The JS
  falsiness of a `0` bound (`startTimestamp && ...`, `!startTimestamp`)
  coincides on `Nat` with the plain comparisons, because no product
  `timestamp * 1000` is ever `< 0`; this is noted at each use site.
* Asynchronous backend primitives are modelled as explicit parameters
  (`fetch : Nat → List Msg` for `chat.fetchMessages({limit})`, an
  `Except String Unit` for the result of `client.sendMessage`, ...), and the
  backend calls a routine performs are returned as an explicit list.
-/

set_option autoImplicit false

namespace WaServer

/-- A JSON-like value as held in the JavaScript objects the server relays.
`jundefined` models the JavaScript value `undefined`. -/
inductive JVal where
  | jnull
  | jundefined
  | jbool (b : Bool)
  | jnum (n : Nat)
  | jstr (s : String)
  | jarr (elems : List JVal)
  | jobj (fields : List (String × JVal))
  deriving Repr

/-- An outbound frame / JavaScript object: an ordered association of field
names to values (JavaScript objects preserve insertion order). -/
abbrev OutMsg := List (String × JVal)

/-- Field access on an outbound object. -/
def OutMsg.field (o : OutMsg) (k : String) : Option JVal :=
  o.lookup k

/-- The field names of an outbound object (`Object.keys`). -/
def OutMsg.keys (o : OutMsg) : List String :=
  o.map Prod.fst

/-- A backend (whatsapp-web.js) message as consumed by the relay code.
Field names follow the source's accesses: `msg.id._serialized` is flattened
to `id`, `msg.from` is renamed `fromId` (`from` is a Lean keyword);
`author` and `quotedMsgId` may be absent (`undefined`), and `isGroupMsg`
is likewise optional. -/
structure Msg where
  id : String
  timestamp : Nat
  author : Option String
  fromId : String
  body : String
  type : String
  quotedMsgId : Option String
  isGroupMsg : Option Bool
  deriving Repr, DecidableEq

/-- JavaScript `a || b` on a possibly-undefined string `a`
(the empty string is falsy). -/
def jsOrStr (a : Option String) (b : String) : String :=
  match a with
  | some s => if s = "" then b else s
  | none => b

/-- JavaScript `s || null` on a possibly-undefined string
(maps falsy values, `undefined` and `""`, to `null`). -/
def jsOrNull (a : Option String) : Option String :=
  match a with
  | some s => if s = "" then none else some s
  | none => none

/-- An optional string as a JSON value, `x || null` style
(source: `msg.quotedMsgId || null`). -/
def jstrOrNull (a : Option String) : JVal :=
  match jsOrNull a with
  | some s => .jstr s
  | none => .jnull

/-- An optional string as a JSON value, plain field copy
(an absent source field stays `undefined`). -/
def jstrOrUndef (a : Option String) : JVal :=
  match a with
  | some s => .jstr s
  | none => .jundefined

/-- An optional boolean as a JSON value, plain field copy. -/
def jboolOrUndef (a : Option Bool) : JVal :=
  match a with
  | some b => .jbool b
  | none => .jundefined

/-! ### History retrieval (src/waLogic.js, getGroupMessages) -/

/-- One item of the `messages` array of a `group_messages` relay
(src/waLogic.js lines 200-207):
`{ id: msg.id._serialized, timestamp: msg.timestamp * 1000,
   sender: msg.author || msg.from, body: msg.body, type: msg.type,
   reply: msg.quotedMsgId || null }`. -/
def msgToPayload (m : Msg) : List (String × JVal) :=
  [("id", .jstr m.id),
   ("timestamp", .jnum (m.timestamp * 1000)),
   ("sender", .jstr (jsOrStr m.author m.fromId)),
   ("body", .jstr m.body),
   ("type", .jstr m.type),
   ("reply", jstrOrNull m.quotedMsgId)]

/-- The time-window test of the history filter (src/waLogic.js lines 186-190):
`(!startTimestamp || msgTimestamp >= startTimestamp) &&
 (!endTimestamp || msgTimestamp <= endTimestamp)` where
`msgTimestamp = msg.timestamp * 1000`.  A `null` bound is `none`.  (In JS a
bound of exactly `0` is also falsy and imposes no constraint; on `Nat`
timestamps `ts ≥ 0` always holds and `ts ≤ 0` only at `0`, and the source
compares epoch milliseconds, so the plain comparisons below coincide with
the JS truthiness on every reachable value; the `== 0` disjuncts keep the
translation exact regardless.) -/
def tsFilterPass (startTs endTs : Option Nat) (ts : Nat) : Bool :=
  (match startTs with
   | none => true
   | some st => st == 0 || ts ≥ st) &&
  (match endTs with
   | none => true
   | some et => et == 0 || ts ≤ et)

/-- Stable insertion of a message into a timestamp-sorted list: the new
message goes after all existing messages of `≤` timestamp. -/
def sortInsert (m : Msg) : List Msg → List Msg
  | [] => [m]
  | x :: xs => if x.timestamp ≤ m.timestamp then x :: sortInsert m xs else m :: x :: xs

/-- The sort of src/waLogic.js line 194,
`filteredMessages.sort((a, b) => a.timestamp - b.timestamp)`: a stable
ascending sort by `timestamp` (ECMAScript `Array.prototype.sort` is stable),
modelled as stable insertion sort. -/
def sortByTimestamp : List Msg → List Msg
  | [] => []
  | x :: xs => sortInsert x (sortByTimestamp xs)

/-- The filter-then-sort step applied to the accepted batch
(src/waLogic.js lines 186-194). -/
def filteredSorted (batch : List Msg) (startTs endTs : Option Nat) : List Msg :=
  sortByTimestamp (batch.filter (fun m => tsFilterPass startTs endTs (m.timestamp * 1000)))

/-- The escalating-fetch loop of src/waLogic.js lines 168-182, over the
remaining list of limits.  For each limit the batch is fetched; if it is
nonempty and its first (oldest) message's millisecond timestamp is strictly
before `startTime`, that batch is accepted (`allMessages = messages;
fetched = true; break`).  Otherwise the loop continues; if no limit is
accepted the routine keeps `allMessages = []` and `fetched = false`.
(The JS guard is `startTimestamp && oldest < startTimestamp`; a `null`
bound is `none` here, and for the falsy bound `0` the comparison
`oldest < 0` is false on `Nat` exactly as the JS guard is.)  The result is
`(allMessages, fetched, limits actually fetched)`. -/
def selectBatchGo (fetch : Nat → List Msg) (startTs : Option Nat) :
    List Nat → List Msg × Bool × List Nat
  | [] => ([], false, [])
  | limit :: rest =>
    let messages := fetch limit
    let accept : Bool :=
      match messages.head?, startTs with
      | some m0, some st => decide (m0.timestamp * 1000 < st)
      | _, _ => false
    if accept then (messages, true, [limit])
    else
      let r := selectBatchGo fetch startTs rest
      (r.1, r.2.1, limit :: r.2.2)

/-- The fetch limits tried by `getGroupMessages`
(src/waLogic.js line 169: `const fetchLimits = [50, 200, 500]`). -/
def fetchLimits : List Nat := [50, 200, 500]

/-- The batch-acceptance phase of `getGroupMessages`
(src/waLogic.js lines 168-182). -/
def selectBatch (fetch : Nat → List Msg) (startTs : Option Nat) :
    List Msg × Bool × List Nat :=
  selectBatchGo fetch startTs fetchLimits

/-! ### Backend (whatsapp-web.js) session model (src/waIntegration.js) -/

/-- A call into the automation backend (the opaque whatsapp-web.js client). -/
inductive BackendCall where
  | getState
  | initializeClient
  | waitForSelector
  | getGroupChats
  | getChatById (groupId : String)
  | fetchMessages (limit : Nat)
  | sendMessage (recipientId : String) (body : String)
  | destroy
  deriving Repr, DecidableEq

/-- Observable effects of one routine: the backend calls it performs, the
frames it relays through `sendMessageToClients`, and the notable log lines
it emits (routine debug logging is not modelled; only the log lines that a
claim distinguishes from relays are). -/
structure Effects where
  calls : List BackendCall
  relays : List OutMsg
  logs : List String
  deriving Repr

/-- The record held in `waClients[userId]` (src/waIntegration.js line 8),
restricted to what the claims observe: the QR retry counter of the
listener closure (`QRrequest` in `setupClientListeners`) and the behavior
of `client.getState()` (its returned state string, or the error it
throws). -/
structure WaClientRec where
  qrCount : Nat
  getStateR : Except String String
  deriving Repr

/-- `getConnectedClient` (src/waIntegration.js lines 107-124): `null` when no
record exists; otherwise calls `getState` and yields the client only when
the state is `CONNECTED` (a thrown `getState` is caught and yields `null`).
Returns the result together with the backend calls made. -/
def getConnectedClientE (cl : Option WaClientRec) :
    Option WaClientRec × List BackendCall :=
  match cl with
  | none => (none, [])
  | some r =>
    match r.getStateR with
    | .ok s => (if s = "CONNECTED" then some r else none, [.getState])
    | .error _ => (none, [.getState])

/-! ### Relay frame builders (src/waIntegration.js handleWhatsAppEvent and
the relay objects built in src/waLogic.js) -/

/-- An `error` relay: `{ event: 'error', userid, message }`. -/
def errObj (userId msg : String) : OutMsg :=
  [("event", .jstr "error"), ("userid", .jstr userId), ("message", .jstr msg)]

/-- A `qr` relay: `{ event: 'qr', userid, qr_code }`. -/
def qrObj (userId qr : String) : OutMsg :=
  [("event", .jstr "qr"), ("userid", .jstr userId), ("qr_code", .jstr qr)]

/-- A `ready` relay: `{ event: 'ready', userid }`. -/
def readyObj (userId : String) : OutMsg :=
  [("event", .jstr "ready"), ("userid", .jstr userId)]

/-- An `authenticated` relay: `{ event: 'authenticated', userid }`. -/
def authenticatedObj (userId : String) : OutMsg :=
  [("event", .jstr "authenticated"), ("userid", .jstr userId)]

/-- A `disconnected` relay: `{ event: 'disconnected', userid }`. -/
def disconnectedObj (userId : String) : OutMsg :=
  [("event", .jstr "disconnected"), ("userid", .jstr userId)]

/-- A `message_sent` relay: `{ event: 'message_sent', userid, recipientId,
message }` (src/waLogic.js line 245). -/
def messageSentObj (userId recipientId message : String) : OutMsg :=
  [("event", .jstr "message_sent"), ("userid", .jstr userId),
   ("recipientId", .jstr recipientId), ("message", .jstr message)]

/-- The `parsedMessage` object of the live `message` relay
(src/waIntegration.js lines 256-265).  `sender` is `data.author`, which is
`undefined` for direct chats; `reply` is `data.quotedMsgId || null`. -/
def parsedMessage (m : Msg) : List (String × JVal) :=
  [("id", .jstr m.id),
   ("isGroups", jboolOrUndef m.isGroupMsg),
   ("timestamp", .jnum (m.timestamp * 1000)),
   ("sender", jstrOrUndef m.author),
   ("from", .jstr m.fromId),
   ("body", .jstr m.body),
   ("type", .jstr m.type),
   ("reply", jstrOrNull m.quotedMsgId)]

/-- A live `message` relay: `{ event: 'message', userid, message:
parsedMessage }` (src/waIntegration.js line 266). -/
def liveMessageObj (userId : String) (m : Msg) : OutMsg :=
  [("event", .jstr "message"), ("userid", .jstr userId),
   ("message", .jobj (parsedMessage m))]

/-- The `group_messages` relay (src/waLogic.js lines 196-209), given the
already filtered-and-sorted message list and the raw `startTime` request
string (`date: startTime ? startTime.split("T")[0] : null`). -/
def groupMessagesObj (userId groupId : String) (msgs : List Msg)
    (startRaw : Option String) : OutMsg :=
  [("event", .jstr "group_messages"),
   ("userid", .jstr userId),
   ("group_id", .jstr groupId),
   ("messages", .jarr (msgs.map (fun m => .jobj (msgToPayload m)))),
   ("date", match jsOrNull startRaw with
            | some s => .jstr ((s.splitOn "T").headD s)
            | none => .jnull)]

/-! ### Phone-number canonicalization (src/waLogic.js lines 236-241, 257-264) -/

/-- JavaScript `p.startsWith(pre)`, modelled at the character level. -/
def strStartsWith (p pre : String) : Bool :=
  pre.data.isPrefixOf p.data

/-- JavaScript `p.slice(1)`, modelled at the character level. -/
def strSlice1 (p : String) : String :=
  String.mk (p.data.drop 1)

/-- `convertPhoneNumberToWaId` (src/waLogic.js lines 257-264): numbers
already prefixed with the country code `972` only gain the `@c.us` domain;
a leading `0` is replaced by `972`; anything else gains the domain. -/
def convertPhoneNumberToWaId (phoneNumber : String) : String :=
  if strStartsWith phoneNumber "972" then
    phoneNumber ++ "@c.us"
  else if strStartsWith phoneNumber "0" then
    "972" ++ strSlice1 phoneNumber ++ "@c.us"
  else
    phoneNumber ++ "@c.us"

/-- The regex test `/^\d{10,}$/.test(recipient)` of src/waLogic.js line 237:
a bare numeric string of at least 10 (ASCII) digits. -/
def isBareNumeric (s : String) : Bool :=
  s.data.length ≥ 10 && s.data.all Char.isDigit

/-- The recipient canonicalization performed inside `UserSendMessage`
(src/waLogic.js lines 236-241): bare numeric recipients are converted,
all other recipient strings are used verbatim. -/
def recipientWaId (recipient : String) : String :=
  if isBareNumeric recipient then convertPhoneNumberToWaId recipient
  else recipient

/-! ### waLogic.js operations -/

/-- `UserSendMessage` (src/waLogic.js lines 225-250).  `sendResult` is the
behavior of the backend `client.sendMessage` call (which is only reached
when a connected client exists). -/
def UserSendMessage (cl : Option WaClientRec) (userId recipient message : String)
    (sendResult : Except String Unit) : Effects :=
  match getConnectedClientE cl with
  | (none, calls) =>
    { calls := calls,
      relays := [errObj userId "WhatsApp client not connected"],
      logs := [] }
  | (some _, calls) =>
    let recipientId := recipientWaId recipient
    match sendResult with
    | .ok _ =>
      { calls := calls ++ [.sendMessage recipientId message],
        relays := [messageSentObj userId recipientId message],
        logs := [] }
    | .error e =>
      { calls := calls ++ [.sendMessage recipientId message],
        relays := [errObj userId e],
        logs := [] }

/-- `getGroupMessages` (src/waLogic.js lines 150-215).  `fetch` is the
backend `chat.fetchMessages({limit})`; `chatFound` is whether
`client.getChatById(groupId)` yields a chat; `startTs`/`endTs` are the
epoch-millisecond values of `new Date(startTime).getTime()` for truthy
request strings (`none` for an absent/empty bound, and also for an invalid
date: `NaN` is falsy, so the source's `Invalid startTime` throw on line
165-167 can never fire — `startTimestamp && isNaN(startTimestamp)` is false
both for numbers and for `NaN` — and `NaN` then behaves as an absent bound
in every later guard). -/
def getGroupMessages (cl : Option WaClientRec) (userId groupId : String)
    (fetch : Nat → List Msg) (chatFound : Bool)
    (startTs endTs : Option Nat) (startRaw : Option String) : Effects :=
  match getConnectedClientE cl with
  | (none, calls) =>
    { calls := calls,
      relays := [errObj userId ("WhatsApp client not connected for userId " ++ userId)],
      logs := [] }
  | (some _, calls0) =>
    let calls1 := calls0 ++ [.getChatById groupId]
    if !chatFound then
      { calls := calls1,
        relays := [errObj userId ("Chat not found for group " ++ groupId)],
        logs := [] }
    else
      let sel := selectBatch fetch startTs
      let allMessages := sel.1
      let fetched := sel.2.1
      let msgs := filteredSorted allMessages startTs endTs
      { calls := calls1 ++ sel.2.2.map .fetchMessages,
        relays := [groupMessagesObj userId groupId msgs startRaw],
        logs := if fetched then [] else
          ["Unable to fetch messages older than the start time."] }

/-- `enableReceivingMessages` (src/waLogic.js lines 266-284): with no
connected client it only logs an error (no relay, no backend call); with a
client it attaches the message listener (no backend call modelled). -/
def enableReceivingMessages (cl : Option WaClientRec) (userId : String) : Effects :=
  match cl with
  | none =>
    { calls := [],
      relays := [],
      logs := ["No active WhatsApp client for userId " ++ userId] }
  | some _ => { calls := [], relays := [], logs := [] }

/-! ### QR challenge cap and termination (src/waIntegration.js) -/

/-- One `qr` backend event as processed by the listener installed in
`setupClientListeners` (src/waIntegration.js lines 136-145): the closure
counter `QRrequest` is incremented, the challenge is relayed, and when the
counter reaches 10 the client is terminated — `terminateWhatsAppClient`
(lines 202-219) calls `client.destroy()` and removes the record from
`waClients`.  With no record present nothing happens (a destroyed client
emits no further events). -/
def onQrEvent (userId qr : String) (cl : Option WaClientRec) :
    Option WaClientRec × Effects :=
  match cl with
  | none => (none, { calls := [], relays := [], logs := [] })
  | some r =>
    let r2 : WaClientRec := { qrCount := r.qrCount + 1, getStateR := r.getStateR }
    if r2.qrCount ≥ 10 then
      (none, { calls := [.destroy], relays := [qrObj userId qr],
               logs := ["Too many QR requests (10) for userId " ++ userId ++ ". Terminating client."] })
    else
      (some r2, { calls := [], relays := [qrObj userId qr], logs := [] })

/-- Iterated `qr` events for one user (the session state reached after `n`
challenge-issued events). -/
def qrIter (userId qr : String) : Nat → Option WaClientRec → Option WaClientRec
  | 0, cl => cl
  | n + 1, cl => qrIter userId qr n (onQrEvent userId qr cl).1

/-- `initializeWhatsAppClient` (src/waIntegration.js lines 47-100), the
`connect`/`initiate` entry point; `initResult` is the behavior of the
backend `initialize()` call.  Only its backend calls and relays are
modelled (the claims only distinguish this entry point from all others). -/
def initializeWhatsAppClient (cl : Option WaClientRec) (userId : String)
    (initResult : Except String Unit) : Effects :=
  match cl with
  | some r =>
    match r.getStateR with
    | .ok s =>
      if s = "CONNECTED" then
        { calls := [.getState], relays := [readyObj userId], logs := [] }
      else
        { calls := [.getState, .initializeClient], relays := [], logs := [] }
    | .error _ =>
      -- the stale record is dropped and a fresh client is created below
      match initResult with
      | .ok _ => { calls := [.getState, .initializeClient, .getState], relays := [], logs := [] }
      | .error e => { calls := [.getState, .initializeClient], relays := [],
                      logs := ["Initialization failed for userId " ++ userId ++ ": " ++ e] }
  | none =>
    match initResult with
    | .ok _ => { calls := [.initializeClient, .getState], relays := [], logs := [] }
    | .error e => { calls := [.initializeClient], relays := [],
                    logs := ["Initialization failed for userId " ++ userId ++ ": " ++ e] }

/-! ### Group listing (src/waLogic.js, getWhatsAppGroups) -/

/-- A backend chat as consumed by `getWhatsAppGroups`: `chat.id._serialized`
(possibly undefined), `chat.name`, `chat.id.server`, `chat.archived`,
`chat.timestamp` (0 and undefined are both falsy where the source applies
`|| null` / `|| false`). -/
structure Chat where
  idSerialized : Option String
  name : Option String
  server : String
  archived : Option Bool
  timestamp : Option Nat
  deriving Repr

/-- JavaScript `n || null` on a possibly-undefined number (`0` is falsy). -/
def jsOrNullNat (a : Option Nat) : Option Nat :=
  match a with
  | some n => if n = 0 then none else some n
  | none => none

/-- The `chatsJSON` projection of src/waLogic.js lines 115-121. -/
structure ChatJSON where
  id : Option String
  name : String
  isGroup : Bool
  archived : Bool
  timestamp : Option Nat
  deriving Repr

/-- src/waLogic.js lines 115-121: `{ id: chat.id._serialized || null,
name: chat.name || "Unknown", isGroup: chat.id.server === 'g.us',
archived: chat.archived || false, timestamp: chat.timestamp || null }`. -/
def chatToJSON (c : Chat) : ChatJSON :=
  { id := jsOrNull c.idSerialized,
    name := jsOrStr c.name "Unknown",
    isGroup := c.server = "g.us",
    archived := c.archived.getD false,
    timestamp := jsOrNullNat c.timestamp }

/-- The `group_list` relay built in src/waLogic.js lines 122-134. -/
def groupListObj (userId : String) (chats : List Chat) : OutMsg :=
  let chatsJSON := chats.map chatToJSON
  let groups := (chatsJSON.filter (fun c => c.isGroup && !c.archived)).map
    (fun g => JVal.jobj
      [("id", match g.id with | some s => .jstr s | none => .jnull),
       ("name", .jstr g.name),
       ("timestamp", match g.timestamp with | some n => .jnum n | none => .jnull)])
  [("event", .jstr "group_list"), ("userid", .jstr userId), ("groups", .jarr groups)]

/-- `getWhatsAppGroups` (src/waLogic.js lines 99-140).  `pageReady` is the
behavior of the `pupPage.waitForSelector` wait; `chats` is what the backend
`getGroupChats()` returns. -/
def getWhatsAppGroups (cl : Option WaClientRec) (userId : String)
    (pageReady : Except String Unit) (chats : List Chat) : Effects :=
  match getConnectedClientE cl with
  | (none, calls) =>
    { calls := calls,
      relays := [errObj userId ("WhatsApp client not connected for userId " ++ userId)],
      logs := [] }
  | (some _, calls0) =>
    match pageReady with
    | .error e =>
      { calls := calls0 ++ [.waitForSelector],
        relays := [errObj userId e], logs := [] }
    | .ok _ =>
      { calls := calls0 ++ [.waitForSelector, .getGroupChats],
        relays := [groupListObj userId chats], logs := [] }

/-! ### Request dispatch (src/waLogic.js, handleClientRequest) -/

/-- The request object handed to `handleClientRequest` by the router. -/
structure ReqData where
  event : String
  recipient : Option String
  message : Option String
  group_id : Option String
  startTime : Option String
  endTime : Option String
  deriving Repr, DecidableEq

/-- All backend behavior parameters a dispatched request may consult
(each models one opaque backend primitive). -/
structure BackendEnv where
  fetch : Nat → List Msg
  chatFound : Bool
  sendResult : Except String Unit
  pageReady : Except String Unit
  chats : List Chat
  initResult : Except String Unit
  parseDate : String → Option Nat

/-- `handleClientRequest` (src/waLogic.js lines 10-36): dispatch on
`requestData.event`.  `fetch_messages` parses the optional bounds with
`new Date(...).getTime()` (modelled by `env.parseDate`; `none` is `NaN`,
which behaves as an absent bound, see `getGroupMessages`). -/
def handleClientRequest (cl : Option WaClientRec) (userId : String)
    (req : ReqData) (env : BackendEnv) : Effects :=
  match req.event with
  | "initiate" => initializeWhatsAppClient cl userId env.initResult
  | "fetch_groups" => getWhatsAppGroups cl userId env.pageReady env.chats
  | "fetch_messages" =>
    getGroupMessages cl userId (req.group_id.getD "") env.fetch env.chatFound
      ((jsOrNull req.startTime).bind env.parseDate)
      ((jsOrNull req.endTime).bind env.parseDate)
      req.startTime
  | "send_message" =>
    UserSendMessage cl userId (req.recipient.getD "") (req.message.getD "") env.sendResult
  | "get_messages" => enableReceivingMessages cl userId
  | e => { calls := [], relays := [], logs := ["Unhandled event: " ++ e] }

/-! ### Connection registry and fan-out (src/waWSserver.js) -/

/-- `wsClientMap[wsid].userIds`: the subscriptions of one connection,
`userId ↦ sendMessages` (the source stores `{ sendMessages: bool }`
objects; an object is truthy regardless of the flag, so presence in this
association list models presence of the subscription object). -/
abbrev Subs := List (String × Bool)

/-- `wsClientMap`: `wsid ↦ { userIds }`.  A JavaScript object has unique
keys in insertion order; the operations below preserve that discipline. -/
abbrev Registry := List (String × Subs)

/-- JavaScript property assignment `m[k] = v` on an object modelled as an
association list: replaces the first binding of `k` in place, or appends a
new binding at the end (JS insertion order). -/
def setKey {α : Type} : List (String × α) → String → α → List (String × α)
  | [], k, v => [(k, v)]
  | (k', v') :: rest, k, v =>
    if k' = k then (k, v) :: rest else (k', v') :: setKey rest k v

/-- JavaScript `delete m[k]`. -/
def removeKey {α : Type} : List (String × α) → String → List (String × α)
  | [], _ => []
  | (k', v') :: rest, k =>
    if k' = k then rest else (k', v') :: removeKey rest k

/-- The server state the claims observe: `wsClients` (restricted to the
wsids whose socket is live and `OPEN`) and `wsClientMap`. -/
structure ServerState where
  conns : List String
  clientMap : Registry
  deriving Repr

/-- The base target computation of `sendMessageToClients`
(src/waWSserver.js lines 141-142): every registered connection holding a
subscription for `userId`. -/
def subscribedTargets (reg : Registry) (userId : String) : List String :=
  (reg.map Prod.fst).filter (fun wsid =>
    match reg.lookup wsid with
    | some subs => (subs.lookup userId).isSome
    | none => false)

/-- The `sendMessages` flag consulted by the content-message restriction
(src/waWSserver.js line 145); the source indexes without guards because
the wsid was just filtered to hold the subscription. -/
def deliveryEnabledFor (reg : Registry) (userId wsid : String) : Bool :=
  match reg.lookup wsid with
  | some subs =>
    match subs.lookup userId with
    | some flag => flag
    | none => false
  | none => false

/-- Target resolution of `sendMessageToClients` (src/waWSserver.js lines
141-145): all subscribers of `userId`, restricted to `sendMessages=true`
subscriptions exactly when the outbound frame's `event` is `'message'`. -/
def resolveTargets (reg : Registry) (userId eventKind : String) : List String :=
  let targetClients := subscribedTargets reg userId
  if eventKind = "message" then
    targetClients.filter (deliveryEnabledFor reg userId)
  else
    targetClients

/-- Whether an outbound frame satisfies `message.event === 'message'`. -/
def eventIsMessage (message : OutMsg) : Bool :=
  match message.field "event" with
  | some (.jstr s) => s = "message"
  | _ => false

/-- The delivery loop of src/waWSserver.js lines 157-167: a live `OPEN`
socket receives the frame; a dead one instead has this one subscription
removed (lazy cleanup, line 165).  Returns the wsids actually sent to and
the updated `wsClientMap`.  (A dead wsid missing from the map entirely
would throw in the source; such a wsid is never produced by the target
computation, and the model leaves the map unchanged there.) -/
def sendLoop (conns : List String) (userId : String) :
    Registry → List String → List String × Registry
  | reg, [] => ([], reg)
  | reg, wsid :: rest =>
    if conns.contains wsid then
      let r := sendLoop conns userId reg rest
      (wsid :: r.1, r.2)
    else
      let reg2 :=
        match reg.lookup wsid with
        | some subs => setKey reg wsid (removeKey subs userId)
        | none => reg
      sendLoop conns userId reg2 rest

/-- The observable outcome of one `sendMessageToClients` call. -/
structure FanoutResult where
  sentTo : List String
  clientMap : Registry
  loggedNoMessageClients : Bool
  loggedNoClients : Bool
  deriving Repr

/-- `sendMessageToClients` (src/waWSserver.js lines 138-168).  When the
frame's `event` is `'message'` the target set is restricted to
`sendMessages=true` subscriptions; an empty restricted set is logged
(`logInfo`, line 147) and nothing is sent; an empty unrestricted set is
logged as an error (line 153) and nothing is sent. -/
def sendMessageToClients (st : ServerState) (userId : String) (message : OutMsg)
    (specificClients : Option (List String)) : FanoutResult :=
  let targetClients :=
    match specificClients with
    | some l => l
    | none => subscribedTargets st.clientMap userId
  if eventIsMessage message then
    let restricted := targetClients.filter (deliveryEnabledFor st.clientMap userId)
    if restricted.isEmpty then
      { sentTo := [], clientMap := st.clientMap,
        loggedNoMessageClients := true, loggedNoClients := false }
    else
      let r := sendLoop st.conns userId st.clientMap restricted
      { sentTo := r.1, clientMap := r.2,
        loggedNoMessageClients := false, loggedNoClients := false }
  else
    if targetClients.isEmpty then
      { sentTo := [], clientMap := st.clientMap,
        loggedNoMessageClients := false, loggedNoClients := true }
    else
      let r := sendLoop st.conns userId st.clientMap targetClients
      { sentTo := r.1, clientMap := r.2,
        loggedNoMessageClients := false, loggedNoClients := false }

/-! ### Inbound message handling (src/waWSserver.js, handleIncomingMessage) -/

/-- JavaScript truthiness of a possibly-absent string field
(`undefined` and `""` are falsy). -/
def jsTruthy (o : Option String) : Bool :=
  match o with
  | some s => s ≠ ""
  | none => false

/-- A decoded inbound frame (§6: `{event, user_id, recipient?, message?,
group_id?, startTime?, endTime?}`); each field is absent (`undefined`)
or a string. -/
structure Frame where
  user_id : Option String
  event : Option String
  recipient : Option String
  message : Option String
  group_id : Option String
  startTime : Option String
  endTime : Option String
  deriving Repr, DecidableEq

/-- `subscribe` — the `initiate` case of `handleIncomingMessage`
(src/waWSserver.js lines 59-69): ensure `wsClientMap[wsid]` exists, then
create `userIds[userId] = { sendMessages: false }` only if that
subscription object is not already present (an existing object is truthy
whatever its flag, so it is left untouched). -/
def subscribe (reg : Registry) (wsid userId : String) : Registry :=
  let conn := (reg.lookup wsid).getD []
  match conn.lookup userId with
  | some _ => setKey reg wsid conn
  | none => setKey reg wsid (conn ++ [(userId, false)])

/-- The assignment `wsClientMap[wsid].userIds[userId].sendMessages = v`
of the `get_messages` / `stop_messages` cases (src/waWSserver.js lines
72 and 78).  With no entry for `wsid`, reading `.userIds` of `undefined`
throws; with no subscription for `userId`, assigning `.sendMessages` on
`undefined` throws; either exception is reported as `.error`. -/
def setDeliveryFlag (reg : Registry) (wsid userId : String) (v : Bool) :
    Except Unit Registry :=
  match reg.lookup wsid with
  | none => .error ()
  | some conn =>
    match conn.lookup userId with
    | none => .error ()
    | some _ => .ok (setKey reg wsid (setKey conn userId v))

/-- What one `handleIncomingMessage` call did: the resulting server state,
the `handleClientRequest` dispatches it made, the acknowledgment frames it
sent directly (`disconnect` echo), whether the `catch` block ran, and the
error frames the `catch` block relayed. -/
structure HandleResult where
  state : ServerState
  dispatches : List (String × ReqData)
  acks : List (String × OutMsg)
  caught : Bool
  catchRelays : List OutMsg
  deriving Repr

/-- The `catch` block of `handleIncomingMessage` (src/waWSserver.js lines
122-129).  The block tests `typeof data !== 'undefined' && data.user_id`,
but `data` is declared with `const` *inside* the `try` block, so the
identifier does not resolve in the `catch` clause's scope and
`typeof data` evaluates to `"undefined"` there; the guard is therefore
always false: the failure is only logged (`Cannot send error response -
user_id is undefined.`) and no error frame is ever relayed.  The
connection is neither closed nor unregistered. -/
def catchBlock (st : ServerState) : HandleResult :=
  { state := st, dispatches := [], acks := [], caught := true, catchRelays := [] }

/-- A `ReqData` with only an event tag (e.g. `{ event: 'initiate' }`). -/
def reqOfEvent (e : String) : ReqData :=
  { event := e, recipient := none, message := none, group_id := none,
    startTime := none, endTime := none }

/-- `handleIncomingMessage` (src/waWSserver.js lines 48-130).  `input` is
the result of `JSON.parse` on the frame body (`none` when parsing throws).
A frame without a truthy `user_id` and `event` throws into the `catch`
block.  Note the `get_messages`/`stop_messages` cases only flip the
per-subscription flag (the dispatch on line 74 is commented out), and the
`disconnect` case first echoes `disconnected` to the requesting connection
only, then deletes that one subscription. -/
def handleIncomingMessage (st : ServerState) (wsid : String)
    (input : Option Frame) : HandleResult :=
  match input with
  | none => catchBlock st
  | some data =>
    if jsTruthy data.user_id = false || jsTruthy data.event = false then
      catchBlock st
    else
      let userId := data.user_id.getD ""
      match data.event.getD "" with
      | "initiate" =>
        { state := { conns := st.conns, clientMap := subscribe st.clientMap wsid userId },
          dispatches := [(userId, reqOfEvent "initiate")],
          acks := [], caught := false, catchRelays := [] }
      | "get_messages" =>
        match setDeliveryFlag st.clientMap wsid userId true with
        | .ok reg2 =>
          { state := { conns := st.conns, clientMap := reg2 },
            dispatches := [], acks := [], caught := false, catchRelays := [] }
        | .error _ => catchBlock st
      | "stop_messages" =>
        match setDeliveryFlag st.clientMap wsid userId false with
        | .ok reg2 =>
          { state := { conns := st.conns, clientMap := reg2 },
            dispatches := [], acks := [], caught := false, catchRelays := [] }
        | .error _ => catchBlock st
      | "get_groups" =>
        { state := st, dispatches := [(userId, reqOfEvent "fetch_groups")],
          acks := [], caught := false, catchRelays := [] }
      | "send_message" =>
        { state := st,
          dispatches := [(userId,
            { event := "send_message", recipient := data.recipient,
              message := data.message, group_id := none,
              startTime := none, endTime := none })],
          acks := [], caught := false, catchRelays := [] }
      | "get_group_messages" =>
        if jsTruthy data.group_id = false then
          catchBlock st
        else
          { state := st,
            dispatches := [(userId,
              { event := "fetch_messages", recipient := none, message := none,
                group_id := data.group_id,
                startTime := jsOrNull data.startTime,
                endTime := jsOrNull data.endTime })],
            acks := [], caught := false, catchRelays := [] }
      | "disconnect" =>
        let fr := sendMessageToClients st userId (disconnectedObj userId) (some [wsid])
        let ackState : ServerState := { conns := st.conns, clientMap := fr.clientMap }
        (match ackState.clientMap.lookup wsid with
         | none =>
           -- `delete wsClientMap[wsid].userIds[userId]` throws on a missing entry
           { state := ackState, dispatches := [],
             acks := [(wsid, disconnectedObj userId)], caught := true, catchRelays := [] }
         | some conn =>
           { state := { conns := st.conns,
                        clientMap := setKey ackState.clientMap wsid (removeKey conn userId) },
             dispatches := [], acks := [(wsid, disconnectedObj userId)],
             caught := false, catchRelays := [] })
      | _ =>
        { state := st,
          dispatches := [(userId,
            { event := data.event.getD "", recipient := data.recipient,
              message := data.message, group_id := data.group_id,
              startTime := data.startTime, endTime := data.endTime })],
          acks := [], caught := false, catchRelays := [] }

/-! ### Helper lemmas: association lists -/

theorem lookup_cons_self {α : Type} (k : String) (v : α) (tl : List (String × α)) :
    ((k, v) :: tl).lookup k = some v := by
  rw [List.lookup_cons]
  simp

theorem lookup_cons_ne {α : Type} {k k' : String} (h : ¬k = k') (v : α)
    (tl : List (String × α)) : ((k', v) :: tl).lookup k = tl.lookup k := by
  rw [List.lookup_cons]
  rw [show (k == k') = false from beq_eq_false_iff_ne.mpr h]

theorem lookup_setKey_self {α : Type} (m : List (String × α)) (k : String) (v : α) :
    (setKey m k v).lookup k = some v := by
  induction m with
  | nil => simp [setKey, lookup_cons_self]
  | cons hd tl ih =>
    obtain ⟨k', v'⟩ := hd
    by_cases hk : k' = k
    · subst hk
      simp [setKey, lookup_cons_self]
    · rw [setKey, if_neg hk, lookup_cons_ne (fun hh => hk hh.symm)]
      exact ih

theorem setKey_self {α : Type} (m : List (String × α)) (k : String) (v : α)
    (h : m.lookup k = some v) : setKey m k v = m := by
  induction m with
  | nil => simp [List.lookup] at h
  | cons hd tl ih =>
    obtain ⟨k', v'⟩ := hd
    by_cases hk : k' = k
    · subst hk
      rw [lookup_cons_self] at h
      injection h with h
      subst h
      rw [setKey, if_pos rfl]
    · rw [lookup_cons_ne (fun hh => hk hh.symm)] at h
      rw [setKey, if_neg hk, ih h]

theorem lookup_mem_keys {α : Type} {m : List (String × α)} {k : String} {v : α}
    (h : m.lookup k = some v) : k ∈ m.map Prod.fst := by
  induction m with
  | nil => simp [List.lookup] at h
  | cons hd tl ih =>
    obtain ⟨k', v'⟩ := hd
    by_cases hk : k = k'
    · subst hk; simp
    · rw [lookup_cons_ne hk] at h
      simpa using Or.inr (ih h)

theorem mem_keys_lookup {α : Type} {m : List (String × α)} {k : String}
    (h : k ∈ m.map Prod.fst) : ∃ v, m.lookup k = some v := by
  induction m with
  | nil => simp at h
  | cons hd tl ih =>
    obtain ⟨k', v'⟩ := hd
    by_cases hk : k = k'
    · subst hk
      exact ⟨v', lookup_cons_self k v' tl⟩
    · have h2 : k ∈ k' :: tl.map Prod.fst := h
      rcases List.mem_cons.mp h2 with h3 | h3
      · exact absurd h3 hk
      · obtain ⟨v, hv⟩ := ih h3
        exact ⟨v, by rw [lookup_cons_ne hk]; exact hv⟩

theorem lookup_append_of_none {α : Type} {m1 : List (String × α)} {k : String}
    (m2 : List (String × α)) (h : m1.lookup k = none) :
    (m1 ++ m2).lookup k = m2.lookup k := by
  induction m1 with
  | nil => simp
  | cons hd tl ih =>
    obtain ⟨k', v'⟩ := hd
    by_cases hk : k = k'
    · subst hk
      rw [lookup_cons_self] at h
      exact absurd h (by simp)
    · rw [lookup_cons_ne hk] at h
      rw [List.cons_append, lookup_cons_ne hk]
      exact ih h

/-! ### Helper lemmas: the timestamp sort -/

/-- The ascending-timestamp order of the relayed history. -/
def tsLE (a b : Msg) : Prop :=
  a.timestamp ≤ b.timestamp

theorem sortInsert_perm (m : Msg) (l : List Msg) :
    (sortInsert m l).Perm (m :: l) := by
  induction l with
  | nil => simp [sortInsert]
  | cons x xs ih =>
    rw [sortInsert]
    by_cases hx : x.timestamp ≤ m.timestamp
    · rw [if_pos hx]
      exact (List.Perm.cons x ih).trans (List.Perm.swap m x xs)
    · rw [if_neg hx]

theorem sortByTimestamp_perm (l : List Msg) : (sortByTimestamp l).Perm l := by
  induction l with
  | nil => simp [sortByTimestamp]
  | cons x xs ih =>
    rw [sortByTimestamp]
    exact (sortInsert_perm x (sortByTimestamp xs)).trans (List.Perm.cons x ih)

theorem sorted_sortInsert (m : Msg) (l : List Msg)
    (h : List.Sorted tsLE l) : List.Sorted tsLE (sortInsert m l) := by
  induction l with
  | nil => simp [sortInsert, List.Sorted]
  | cons x xs ih =>
    rw [sortInsert]
    rw [List.sorted_cons] at h
    by_cases hx : x.timestamp ≤ m.timestamp
    · rw [if_pos hx, List.sorted_cons]
      refine ⟨?_, ih h.2⟩
      intro b hb
      have hb2 : b ∈ m :: xs := (sortInsert_perm m xs).mem_iff.mp hb
      rcases List.mem_cons.mp hb2 with hb3 | hb3
      · subst hb3; exact hx
      · exact h.1 b hb3
    · rw [if_neg hx, List.sorted_cons]
      refine ⟨?_, List.sorted_cons.mpr h⟩
      intro b hb
      have hm : tsLE m x := le_of_not_le hx
      rcases List.mem_cons.mp hb with hb3 | hb3
      · subst hb3; exact hm
      · exact le_trans hm (h.1 b hb3)

theorem sorted_sortByTimestamp (l : List Msg) :
    List.Sorted tsLE (sortByTimestamp l) := by
  induction l with
  | nil => simp [sortByTimestamp, List.Sorted]
  | cons x xs ih => exact sorted_sortInsert x _ ih

/-! ### Claim C4: the history window filter -/

/-- The inclusive time window exactly as claim C4 states it: a present
bound always constrains, an absent bound does not. -/
def inWindowClaim (startTs endTs : Option Nat) (tsMs : Nat) : Prop :=
  (∀ st, startTs = some st → st ≤ tsMs) ∧
  (∀ et, endTs = some et → tsMs ≤ et)

/-- The inclusive time window as the code implements it: an absent bound
imposes no constraint, and neither does a bound of exactly `0` ms (the
epoch), which JavaScript treats as falsy. -/
def inWindowMs (startTs endTs : Option Nat) (tsMs : Nat) : Prop :=
  (∀ st, startTs = some st → st ≠ 0 → st ≤ tsMs) ∧
  (∀ et, endTs = some et → et ≠ 0 → tsMs ≤ et)

theorem tsFilterPass_iff (s e : Option Nat) (ts : Nat) :
    tsFilterPass s e ts = true ↔ inWindowMs s e ts := by
  unfold tsFilterPass inWindowMs
  rw [Bool.and_eq_true]
  constructor
  · rintro ⟨h1, h2⟩
    constructor
    · intro st hst hst0
      subst hst
      rcases Bool.or_eq_true_iff.mp h1 with h | h
      · exact absurd (Nat.beq_eq.mp (by simpa using h)) hst0
      · simpa using h
    · intro et het het0
      subst het
      rcases Bool.or_eq_true_iff.mp h2 with h | h
      · exact absurd (Nat.beq_eq.mp (by simpa using h)) het0
      · simpa using h
  · rintro ⟨h1, h2⟩
    constructor
    · cases s with
      | none => rfl
      | some st =>
        by_cases hst0 : st = 0
        · subst hst0; simp
        · simpa [hst0] using h1 st rfl hst0
    · cases e with
      | none => rfl
      | some et =>
        by_cases het0 : et = 0
        · subst het0; simp
        · simpa [het0] using h2 et rfl het0

/-- A minimal concrete message for concrete-input theorems (`ts` is the
backend unix-seconds timestamp). -/
def msgAt (i : String) (ts : Nat) : Msg :=
  ⟨i, ts, none, "grp@g.us", "body", "chat", none, none⟩

/-- The four-message batch of the claim's worked example, deliberately
scrambled (timestamps in backend seconds; the relayed milliseconds are
these values times 1000). -/
def exampleBatch : List Msg :=
  [msgAt "m3" 300, msgAt "m1" 100, msgAt "m4" 400, msgAt "m2" 200]

/-- Claim C4 is false as stated: for the accepted batch holding one message
at 100 000 ms and the query bound `endTime = 0` ms (the epoch — a legal
bound, produced by `endTime = "1970-01-01T00:00:00Z"`), the relayed list
contains the message although its timestamp does not lie in `[–, 0]`:
JavaScript's `!endTimestamp` treats the `0` bound as absent. -/
theorem filteredSorted_epoch_endTime_counterexample :
    filteredSorted [msgAt "m" 100] none (some 0) = [msgAt "m" 100] ∧
    ¬ inWindowClaim none (some 0) ((msgAt "m" 100).timestamp * 1000) := by
  constructor
  · rfl
  · intro h
    have := h.2 0 rfl
    simp [msgAt] at this

/-- Claim C4 (amended): for every accepted batch and optional bounds, the
filtered-and-sorted list is a permutation of the batch members passing the
window test; that test accepts exactly the messages whose millisecond
timestamp lies in the inclusive range `[startTime, endTime]`, where an
absent bound — and also a bound of exactly `0` ms, which JavaScript
treats as falsy — imposes no constraint; the result is sorted ascending
by timestamp; and on the worked example (timestamps 100/200/300/400
seconds, window `[150 s, 350 s]` in ms) the result is exactly the
200-and-300 messages in ascending order. -/
theorem filteredSorted_window_exact (batch : List Msg) (s e : Option Nat) :
    (filteredSorted batch s e).Perm
      (batch.filter (fun m => tsFilterPass s e (m.timestamp * 1000))) ∧
    (∀ ts, tsFilterPass s e ts = true ↔ inWindowMs s e ts) ∧
    List.Sorted tsLE (filteredSorted batch s e) ∧
    (filteredSorted exampleBatch (some 150000) (some 350000)).map Msg.timestamp
       = [200, 300] := by
  refine ⟨sortByTimestamp_perm _, tsFilterPass_iff s e, sorted_sortByTimestamp _, rfl⟩

/-! ### Claim C1: the escalating-fetch best-effort case -/

theorem selectBatchGo_cons (fetch : Nat → List Msg) (startTs : Option Nat)
    (limit : Nat) (rest : List Nat) :
    selectBatchGo fetch startTs (limit :: rest) =
      (if (match (fetch limit).head?, startTs with
           | some m0, some st => decide (m0.timestamp * 1000 < st)
           | _, _ => false) then (fetch limit, true, [limit])
       else
         ((selectBatchGo fetch startTs rest).1,
          (selectBatchGo fetch startTs rest).2.1,
          limit :: (selectBatchGo fetch startTs rest).2.2)) := rfl

theorem selectBatchGo_not_accepted (fetch : Nat → List Msg) (st : Nat)
    (limits : List Nat)
    (h : ∀ l ∈ limits, ∀ m0, (fetch l).head? = some m0 →
      ¬ m0.timestamp * 1000 < st) :
    selectBatchGo fetch (some st) limits = ([], false, limits) := by
  induction limits with
  | nil => rfl
  | cons l ls ih =>
    have hrec : selectBatchGo fetch (some st) ls = ([], false, ls) :=
      ih (fun x hx => h x (List.mem_cons_of_mem l hx))
    rw [selectBatchGo_cons]
    cases hm : (fetch l).head? with
    | none => simp [hm, hrec]
    | some m0 =>
      have hne := h l (List.mem_cons_self l ls) m0 hm
      simp only [hm, hrec, decide_eq_false hne]
      simp

/-- Claim C1 is false as stated: with a connected client, a chat, and a
backend for which every escalation step (50, 200, 500) returns the single
message at 200 000 ms while `startTime = 100 000` ms, no step's earliest
message precedes `startTime`, so the claim says the largest batch fetched
is used — filtered to the window it is the one message — yet the code
relays `group_messages` with an *empty* list: `allMessages` is only ever
assigned inside the accept branch. -/
theorem getGroupMessages_bestEffort_counterexample :
    (getGroupMessages (some ⟨0, .ok "CONNECTED"⟩) "u1" "g1"
        (fun _ => [msgAt "m" 200]) true (some 100000) none none).relays =
      [groupMessagesObj "u1" "g1" [] none] ∧
    filteredSorted [msgAt "m" 200] (some 100000) none = [msgAt "m" 200] ∧
    ([] : List Msg) ≠ [msgAt "m" 200] := by
  refine ⟨rfl, rfl, by simp⟩

/-- Claim C1 (amended): for every query with a `startTime` such that no
escalating fetch (50, 200, 500) returns a batch whose earliest message
timestamp precedes `startTime`, the accepted batch is *empty* — the
`group_messages` relay (not an `error`) carries an empty `messages`
list — and the best-effort case is logged. -/
theorem getGroupMessages_bestEffort (r : WaClientRec) (uid gid : String)
    (fetch : Nat → List Msg) (st : Nat) (endTs : Option Nat)
    (startRaw : Option String)
    (hconn : r.getStateR = .ok "CONNECTED")
    (h : ∀ l ∈ fetchLimits, ∀ m0, (fetch l).head? = some m0 →
      ¬ m0.timestamp * 1000 < st) :
    getGroupMessages (some r) uid gid fetch true (some st) endTs startRaw =
      { calls := [.getState, .getChatById gid] ++ fetchLimits.map .fetchMessages,
        relays := [groupMessagesObj uid gid [] startRaw],
        logs := ["Unable to fetch messages older than the start time."] } := by
  have hc : getConnectedClientE (some r) = (some r, [.getState]) := by
    simp [getConnectedClientE, hconn]
  have hsel : selectBatch fetch (some st) = ([], false, fetchLimits) :=
    selectBatchGo_not_accepted fetch st fetchLimits h
  simp only [getGroupMessages, hc, hsel, filteredSorted]
  rfl

theorem getGroupMessages_bestEffort_witness :
    (getGroupMessages (some ⟨0, Except.ok "CONNECTED"⟩) "u1" "g1"
        (fun _ => []) true (some 5) none none).relays =
      [groupMessagesObj "u1" "g1" [] none] :=
  congrArg Effects.relays
    (getGroupMessages_bestEffort ⟨0, Except.ok "CONNECTED"⟩ "u1" "g1"
      (fun _ => []) 5 none none rfl
      (fun _ _ _ hm => Option.noConfusion hm))

/-! ### Claim C3: the relayed content-message schema -/

/-- A concrete message carrying a quoted-message reference. -/
def mQuoted : Msg :=
  ⟨"m1", 42, some "alice", "grp@g.us", "hi", "chat", some "q1", some true⟩

/-- Claim C3 is false as stated: the relayed payload of a message with a
quoted-message reference has no `replyToId` field — the field is named
`reply` — and the live `message` payload additionally carries `isGroups`
and `from` fields outside the claimed schema. -/
theorem payload_replyToId_counterexample :
    "replyToId" ∉ OutMsg.keys (msgToPayload mQuoted) ∧
    "reply" ∈ OutMsg.keys (msgToPayload mQuoted) ∧
    (msgToPayload mQuoted).lookup "reply" = some (.jstr "q1") ∧
    "replyToId" ∉ OutMsg.keys (parsedMessage mQuoted) ∧
    "isGroups" ∈ OutMsg.keys (parsedMessage mQuoted) ∧
    "from" ∈ OutMsg.keys (parsedMessage mQuoted) := by
  refine ⟨by decide, by decide, rfl, by decide, by decide, by decide⟩

/-- Claim C3 (amended): every content-message payload relayed outward is
normalized: items of a `group_messages` response have exactly the fields
`{id, timestamp (ms), sender, body, type, reply}` and live `message`
events exactly `{id, isGroups, timestamp, sender, from, body, type,
reply}`; in both, `timestamp` is the unix-seconds value times 1000 and the
optional quoted-message reference field is named `reply` (`null` when
absent). -/
theorem payload_schema (m : Msg) :
    OutMsg.keys (msgToPayload m) =
      ["id", "timestamp", "sender", "body", "type", "reply"] ∧
    OutMsg.keys (parsedMessage m) =
      ["id", "isGroups", "timestamp", "sender", "from", "body", "type", "reply"] ∧
    (msgToPayload m).lookup "timestamp" = some (.jnum (m.timestamp * 1000)) ∧
    (parsedMessage m).lookup "timestamp" = some (.jnum (m.timestamp * 1000)) ∧
    (msgToPayload m).lookup "reply" = some (jstrOrNull m.quotedMsgId) ∧
    (parsedMessage m).lookup "reply" = some (jstrOrNull m.quotedMsgId) ∧
    (msgToPayload m).lookup "sender" = some (.jstr (jsOrStr m.author m.fromId)) := by
  refine ⟨rfl, rfl, rfl, rfl, rfl, rfl, rfl⟩

/-! ### Claim C8: recipient canonicalization -/

theorem prefix_972_of_zero_false (l : List Char) (h : ['0'].isPrefixOf l = true) :
    ['9', '7', '2'].isPrefixOf l = false := by
  rw [Bool.eq_false_iff]
  intro htrue
  rw [List.isPrefixOf_iff_prefix] at htrue h
  obtain ⟨t, rfl⟩ := h
  obtain ⟨s, hs⟩ := htrue
  simp at hs

/-- Claim C8: a bare numeric recipient (10+ digits) already starting with
the country code `972` only gains the `@c.us` domain; one starting with
the trunk digit `0` has the digit replaced by `972` and gains the domain
(`0501234567` becomes `972501234567@c.us`); a recipient not matching
`/^\d{10,}$/` is passed to the backend verbatim — and the send call uses
exactly the canonicalized identifier. -/
theorem recipient_canonicalization (p : String) (r0 : WaClientRec)
    (uid msg : String) :
    (isBareNumeric p = true → strStartsWith p "972" = true →
      recipientWaId p = p ++ "@c.us") ∧
    (isBareNumeric p = true → strStartsWith p "0" = true →
      recipientWaId p = "972" ++ strSlice1 p ++ "@c.us") ∧
    (isBareNumeric p = false → recipientWaId p = p) ∧
    recipientWaId "0501234567" = "972501234567@c.us" ∧
    (r0.getStateR = .ok "CONNECTED" →
      (UserSendMessage (some r0) uid p msg (.ok ())).calls =
        [.getState, .sendMessage (recipientWaId p) msg]) := by
  refine ⟨?_, ?_, ?_, by decide, ?_⟩
  · intro h1 h2
    simp [recipientWaId, convertPhoneNumberToWaId, h1, h2]
  · intro h1 h2
    have h972 : strStartsWith p "972" = false :=
      prefix_972_of_zero_false p.data h2
    simp [recipientWaId, convertPhoneNumberToWaId, h1, h2, h972]
  · intro h1
    simp [recipientWaId, h1]
  · intro hcn
    have hc : getConnectedClientE (some r0) = (some r0, [.getState]) := by
      simp [getConnectedClientE, hcn]
    simp [UserSendMessage, hc]

theorem recipient_canonicalization_witness :
    isBareNumeric "0501234567" = true ∧
    strStartsWith "0501234567" "0" = true ∧
    recipientWaId "0501234567" = "972" ++ strSlice1 "0501234567" ++ "@c.us" ∧
    (UserSendMessage (some ⟨0, Except.ok "CONNECTED"⟩) "u1" "12345@g.us" "hi"
      (Except.ok ())).calls =
      [.getState, .sendMessage (recipientWaId "12345@g.us") "hi"] :=
  ⟨by decide, by decide,
   (recipient_canonicalization "0501234567" ⟨0, Except.ok "CONNECTED"⟩ "u1"
      "hi").2.1 (by decide) (by decide),
   (recipient_canonicalization "12345@g.us" ⟨0, Except.ok "CONNECTED"⟩ "u1"
      "hi").2.2.2.2 rfl⟩

/-! ### Claim C7: send with no ready session -/

/-- Claim C7: for a user with no `CONNECTED` session (no record, a
non-connected state, or a throwing `getState`), `send_message` produces
exactly one `error` relay and never reaches the backend send primitive. -/
theorem sendMessage_no_session (cl : Option WaClientRec)
    (uid rec msg : String) (sendResult : Except String Unit)
    (h : ∀ r, cl = some r → ∀ s, r.getStateR = .ok s → s ≠ "CONNECTED") :
    (UserSendMessage cl uid rec msg sendResult).relays =
      [errObj uid "WhatsApp client not connected"] ∧
    (∀ rid b, BackendCall.sendMessage rid b ∉
      (UserSendMessage cl uid rec msg sendResult).calls) := by
  cases cl with
  | none =>
    refine ⟨rfl, ?_⟩
    intro rid b hmem
    simp [UserSendMessage, getConnectedClientE] at hmem
  | some r =>
    cases hg : r.getStateR with
    | ok s =>
      have hs : s ≠ "CONNECTED" := h r rfl s hg
      have hc : getConnectedClientE (some r) = (none, [.getState]) := by
        simp [getConnectedClientE, hg, hs]
      refine ⟨by simp [UserSendMessage, hc], ?_⟩
      intro rid b
      simp [UserSendMessage, hc]
    | error e =>
      have hc : getConnectedClientE (some r) = (none, [.getState]) := by
        simp [getConnectedClientE, hg]
      refine ⟨by simp [UserSendMessage, hc], ?_⟩
      intro rid b
      simp [UserSendMessage, hc]

theorem sendMessage_no_session_witness :
    (UserSendMessage none "u1" "0501234567" "hi" (Except.ok ())).relays =
      [errObj "u1" "WhatsApp client not connected"] ∧
    BackendCall.sendMessage "x" "y" ∉
      (UserSendMessage none "u1" "0501234567" "hi" (Except.ok ())).calls :=
  ⟨(sendMessage_no_session none "u1" "0501234567" "hi" (Except.ok ())
      (fun _r hr => Option.noConfusion hr)).1,
   (sendMessage_no_session none "u1" "0501234567" "hi" (Except.ok ())
      (fun _r hr => Option.noConfusion hr)).2 "x" "y"⟩

/-! ### Claim C9: idempotent subscription -/

/-- The stored subscription `wsClientMap[wsid].userIds[userId]` (the
`sendMessages` flag, or `none` when absent). -/
def subFlag (reg : Registry) (wsid userId : String) : Option Bool :=
  (reg.lookup wsid).bind (fun subs => subs.lookup userId)

theorem subscribe_eq (reg : Registry) (w u : String) :
    subscribe reg w u =
      match ((reg.lookup w).getD []).lookup u with
      | some _ => setKey reg w ((reg.lookup w).getD [])
      | none => setKey reg w (((reg.lookup w).getD []) ++ [(u, false)]) := rfl

theorem subscribe_subFlag_absent (reg : Registry) (w u : String)
    (h : subFlag reg w u = none) :
    subFlag (subscribe reg w u) w u = some false := by
  cases hr : reg.lookup w with
  | none =>
    have hs : subscribe reg w u = setKey reg w [(u, false)] := by
      rw [subscribe_eq, hr]
      rfl
    rw [hs]
    unfold subFlag
    rw [lookup_setKey_self]
    simp [lookup_cons_self]
  | some conn =>
    have hcu : conn.lookup u = none := by
      unfold subFlag at h
      rw [hr] at h
      simpa using h
    have hs : subscribe reg w u = setKey reg w (conn ++ [(u, false)]) := by
      rw [subscribe_eq, hr]
      simp only [Option.getD_some, hcu]
    rw [hs]
    unfold subFlag
    rw [lookup_setKey_self]
    show (conn ++ [(u, false)]).lookup u = some false
    rw [lookup_append_of_none _ hcu, lookup_cons_self]

theorem subscribe_of_subFlag_present (reg : Registry) (w u : String) (b : Bool)
    (h : subFlag reg w u = some b) : subscribe reg w u = reg := by
  cases hr : reg.lookup w with
  | none =>
    unfold subFlag at h
    rw [hr] at h
    exact absurd h (by simp)
  | some conn =>
    have hcu : conn.lookup u = some b := by
      unfold subFlag at h
      rw [hr] at h
      simpa using h
    rw [subscribe_eq, hr]
    simp only [Option.getD_some, hcu]
    exact setKey_self reg w conn hr

/-- Claim C9: `initiate` subscription is idempotent — an absent
subscription is created with `sendMessages = false`, an existing one
(whatever its flag) leaves the registry completely unchanged, and
subscribing twice equals subscribing once. -/
theorem subscribe_idempotent (reg : Registry) (w u : String) :
    (subFlag reg w u = none → subFlag (subscribe reg w u) w u = some false) ∧
    (∀ b, subFlag reg w u = some b → subscribe reg w u = reg) ∧
    subscribe (subscribe reg w u) w u = subscribe reg w u := by
  refine ⟨subscribe_subFlag_absent reg w u,
          fun b => subscribe_of_subFlag_present reg w u b, ?_⟩
  cases hsf : subFlag reg w u with
  | none =>
    exact subscribe_of_subFlag_present _ w u false
      (subscribe_subFlag_absent reg w u hsf)
  | some b =>
    have hpres := subscribe_of_subFlag_present reg w u b hsf
    simp only [hpres]

theorem subscribe_idempotent_witness :
    subFlag ([] : Registry) "w1" "u1" = none ∧
    subFlag (subscribe ([] : Registry) "w1" "u1") "w1" "u1" = some false ∧
    subscribe (subscribe ([] : Registry) "w1" "u1") "w1" "u1" =
      subscribe ([] : Registry) "w1" "u1" :=
  ⟨rfl, (subscribe_idempotent [] "w1" "u1").1 rfl,
   (subscribe_idempotent [] "w1" "u1").2.2⟩

/-! ### Claim C10: delivery toggle without a subscription -/

theorem setDeliveryFlag_error (reg : Registry) (w u : String) (v : Bool)
    (hsub : subFlag reg w u = none) : setDeliveryFlag reg w u v = .error () := by
  unfold setDeliveryFlag
  cases hr : reg.lookup w with
  | none => rfl
  | some conn =>
    have hcu : conn.lookup u = none := by
      unfold subFlag at hsub
      rw [hr] at hsub
      simpa using hsub
    simp only [hcu]

/-- Claim C10: a `get_messages` or `stop_messages` frame for a
`(connection, user)` pair with no stored subscription throws inside the
handler (property access on the missing record), the exception is caught
locally — the handler result is exactly the `catch` block's: the server
state (connections and registry) is unchanged, nothing is dispatched,
nothing is relayed. -/
theorem toggle_without_subscription (st : ServerState) (wsid u ev : String)
    (rec msg gid stT enT : Option String)
    (hev : ev = "get_messages" ∨ ev = "stop_messages")
    (hsub : subFlag st.clientMap wsid u = none) :
    handleIncomingMessage st wsid
        (some ⟨some u, some ev, rec, msg, gid, stT, enT⟩) =
      catchBlock st := by
  rcases hev with rfl | rfl
  · by_cases hu : u = ""
    · subst hu
      rfl
    · have hjt : jsTruthy (some u) = true := by simp [jsTruthy, hu]
      have hsd : setDeliveryFlag st.clientMap wsid u true = .error () :=
        setDeliveryFlag_error _ _ _ _ hsub
      simp only [handleIncomingMessage, hjt]
      simp [jsTruthy, hsd]
  · by_cases hu : u = ""
    · subst hu
      rfl
    · have hjt : jsTruthy (some u) = true := by simp [jsTruthy, hu]
      have hsd : setDeliveryFlag st.clientMap wsid u false = .error () :=
        setDeliveryFlag_error _ _ _ _ hsub
      simp only [handleIncomingMessage, hjt]
      simp [jsTruthy, hsd]

theorem toggle_without_subscription_witness :
    handleIncomingMessage ⟨["w1"], [("w1", [])]⟩ "w1"
        (some ⟨some "u1", some "get_messages", none, none, none, none, none⟩) =
      catchBlock ⟨["w1"], [("w1", [])]⟩ :=
  toggle_without_subscription ⟨["w1"], [("w1", [])]⟩ "w1" "u1" "get_messages"
    none none none none none (Or.inl rfl) rfl

/-! ### Claim C2: malformed inbound frames -/

/-- What the code actually does on every malformed frame (unparseable
body, falsy `user_id` or `event`, or `get_group_messages` without a
truthy `group_id`): the single request ends in the `catch` block — the
connection stays registered and the server state is untouched — but *no*
error frame is relayed even when `user_id` is present, because the
`catch` block's guard reads the `try`-scoped `const data` and is
therefore always false (the spec's promised `error` relay is dead code). -/
theorem handleIncomingMessage_malformed (st : ServerState) (wsid : String)
    (input : Option Frame)
    (h : input = none ∨ ∃ d, input = some d ∧
      (jsTruthy d.user_id = false ∨ jsTruthy d.event = false ∨
       (d.event = some "get_group_messages" ∧ jsTruthy d.group_id = false))) :
    handleIncomingMessage st wsid input = catchBlock st ∧
    (handleIncomingMessage st wsid input).catchRelays = [] ∧
    (handleIncomingMessage st wsid input).state = st := by
  have hmain : handleIncomingMessage st wsid input = catchBlock st := by
    rcases h with rfl | ⟨d, rfl, hd⟩
    · rfl
    · rcases hd with hu | he | ⟨hev, hg⟩
      · simp [handleIncomingMessage, hu]
      · simp [handleIncomingMessage, he]
      · by_cases hut : jsTruthy d.user_id = false
        · simp [handleIncomingMessage, hut]
        · have hut2 : jsTruthy d.user_id = true := by
            cases hjv : jsTruthy d.user_id with
            | true => rfl
            | false => exact absurd hjv hut
          obtain ⟨uid, ev, rec, msg, gid, stT, enT⟩ := d
          simp only at hev hut2 hg
          subst hev
          have hgid : gid = none ∨ gid = some "" := by
            cases gid with
            | none => exact Or.inl rfl
            | some s =>
              have hd : decide (s ≠ "") = false := by simpa [jsTruthy] using hg
              have hs : s = "" := by simpa using of_decide_eq_false hd
              exact Or.inr (by rw [hs])
          rcases hgid with rfl | rfl
          · simp only [handleIncomingMessage, hut2]
            simp [jsTruthy]
          · simp only [handleIncomingMessage, hut2]
            simp [jsTruthy]
  exact ⟨hmain, by rw [hmain]; rfl, by rw [hmain]; rfl⟩

theorem handleIncomingMessage_malformed_witness :
    handleIncomingMessage ⟨["w1"], [("w1", [])]⟩ "w1"
        (some ⟨some "u1", none, none, none, none, none, none⟩) =
      catchBlock ⟨["w1"], [("w1", [])]⟩ ∧
    (handleIncomingMessage ⟨["w1"], [("w1", [])]⟩ "w1"
        (some ⟨some "u1", none, none, none, none, none, none⟩)).catchRelays = [] :=
  ⟨(handleIncomingMessage_malformed ⟨["w1"], [("w1", [])]⟩ "w1"
      (some ⟨some "u1", none, none, none, none, none, none⟩)
      (Or.inr ⟨_, rfl, Or.inr (Or.inl rfl)⟩)).1,
   (handleIncomingMessage_malformed ⟨["w1"], [("w1", [])]⟩ "w1"
      (some ⟨some "u1", none, none, none, none, none, none⟩)
      (Or.inr ⟨_, rfl, Or.inr (Or.inl rfl)⟩)).2.1⟩

/-! ### Claim C5: target resolution and fan-out restriction -/

theorem mem_subscribedTargets (reg : Registry) (u w : String) :
    w ∈ subscribedTargets reg u ↔
      ∃ subs, reg.lookup w = some subs ∧ (subs.lookup u).isSome = true := by
  unfold subscribedTargets
  rw [List.mem_filter]
  constructor
  · rintro ⟨hmem, hp⟩
    cases hl : reg.lookup w with
    | none => rw [hl] at hp; exact absurd hp (by simp)
    | some subs =>
      rw [hl] at hp
      exact ⟨subs, rfl, hp⟩
  · rintro ⟨subs, hl, hs⟩
    refine ⟨lookup_mem_keys hl, ?_⟩
    rw [hl]
    exact hs

theorem deliveryEnabledFor_eq_true (reg : Registry) (u w : String) :
    deliveryEnabledFor reg u w = true ↔
      ∃ subs, reg.lookup w = some subs ∧ subs.lookup u = some true := by
  unfold deliveryEnabledFor
  cases hl : reg.lookup w with
  | none => simp
  | some subs =>
    cases hs : subs.lookup u with
    | none => simp [hs]
    | some flag => cases flag <;> simp [hs]

/-- Claim C5: `resolveTargets` returns, for a content `message` event,
exactly the connections whose subscription to the user has
`sendMessages = true`; for every other event kind, all connections
subscribed to the user regardless of the flag; and an empty restricted
target set makes `sendMessageToClients` log and send nothing (the
`loggedNoClients` error branch is not taken). -/
theorem resolveTargets_characterization :
    (∀ (reg : Registry) (u w : String),
      w ∈ resolveTargets reg u "message" ↔
        ∃ subs, reg.lookup w = some subs ∧ subs.lookup u = some true) ∧
    (∀ (reg : Registry) (u w kind : String), kind ≠ "message" →
      (w ∈ resolveTargets reg u kind ↔
        ∃ subs, reg.lookup w = some subs ∧ (subs.lookup u).isSome = true)) ∧
    (∀ (st : ServerState) (u : String) (m : OutMsg),
      eventIsMessage m = true → resolveTargets st.clientMap u "message" = [] →
      sendMessageToClients st u m none =
        { sentTo := [], clientMap := st.clientMap,
          loggedNoMessageClients := true, loggedNoClients := false }) := by
  have hres : ∀ (reg : Registry) (u : String),
      resolveTargets reg u "message" =
        (subscribedTargets reg u).filter (deliveryEnabledFor reg u) := by
    intro reg u
    unfold resolveTargets
    rw [if_pos rfl]
  refine ⟨?_, ?_, ?_⟩
  · intro reg u w
    rw [hres, List.mem_filter]
    constructor
    · rintro ⟨_, hflag⟩
      exact (deliveryEnabledFor_eq_true reg u w).mp hflag
    · rintro ⟨subs, hl, ht⟩
      refine ⟨(mem_subscribedTargets reg u w).mpr ⟨subs, hl, by rw [ht]; rfl⟩, ?_⟩
      exact (deliveryEnabledFor_eq_true reg u w).mpr ⟨subs, hl, ht⟩
  · intro reg u w kind hk
    unfold resolveTargets
    rw [if_neg hk]
    exact mem_subscribedTargets reg u w
  · intro st u m hm hempty
    rw [hres] at hempty
    unfold sendMessageToClients
    rw [hm]
    simp only [hempty]
    rfl

theorem resolveTargets_characterization_witness :
    sendMessageToClients ⟨[], [("w2", [("u1", false)])]⟩ "u1"
        (liveMessageObj "u1" mQuoted) none =
      { sentTo := [], clientMap := [("w2", [("u1", false)])],
        loggedNoMessageClients := true, loggedNoClients := false } ∧
    "w2" ∈ resolveTargets [("w2", [("u1", false)])] "u1" "ready" :=
  ⟨resolveTargets_characterization.2.2 ⟨[], [("w2", [("u1", false)])]⟩ "u1"
      (liveMessageObj "u1" mQuoted) rfl rfl,
   (resolveTargets_characterization.2.1 [("w2", [("u1", false)])] "u1" "w2"
      "ready" (by decide)).mpr ⟨[("u1", false)], rfl, rfl⟩⟩

/-! ### Claim C6: the QR challenge cap -/

/-- Claim C6: after 10 challenge (`qr`) events without authentication the
session is terminated — at the 10th event the backend client is destroyed
and its record removed (`waClients[userId]` deleted, the spec's
`TERMINATED`) — and with no record present, no request other than a new
`initiate` makes any backend call. -/
theorem qr_cap_terminates :
    (∀ (u q : String) (g : Except String String),
      qrIter u q 10 (some ⟨0, g⟩) = none) ∧
    (∀ (u q : String) (r : WaClientRec), r.qrCount = 9 →
      onQrEvent u q (some r) =
        (none, { calls := [.destroy], relays := [qrObj u q],
                 logs := ["Too many QR requests (10) for userId " ++ u ++
                   ". Terminating client."] })) ∧
    (∀ (u q : String), onQrEvent u q none =
      (none, { calls := [], relays := [], logs := [] })) ∧
    (∀ (u : String) (req : ReqData) (env : BackendEnv),
      req.event ≠ "initiate" →
      (handleClientRequest none u req env).calls = []) := by
  refine ⟨?_, ?_, fun u q => rfl, ?_⟩
  · intro u q g
    rfl
  · intro u q r h
    obtain ⟨qc, g⟩ := r
    simp only at h
    subst h
    rfl
  · intro u req env h
    unfold handleClientRequest
    split
    next heq => exact absurd heq h
    all_goals rfl

theorem qr_cap_terminates_witness :
    qrIter "u1" "qr1" 10 (some ⟨0, Except.ok "OPENING"⟩) = none ∧
    onQrEvent "u1" "qr1" (some ⟨9, Except.ok "OPENING"⟩) =
      (none, { calls := [.destroy], relays := [qrObj "u1" "qr1"],
               logs := ["Too many QR requests (10) for userId u1. Terminating client."] }) ∧
    (handleClientRequest none "u1" (reqOfEvent "send_message")
        ⟨fun _ => [], true, Except.ok (), Except.ok (), [], Except.ok (),
         fun _ => none⟩).calls = [] :=
  ⟨qr_cap_terminates.1 "u1" "qr1" (Except.ok "OPENING"),
   qr_cap_terminates.2.1 "u1" "qr1" ⟨9, Except.ok "OPENING"⟩ rfl,
   qr_cap_terminates.2.2.2 "u1" (reqOfEvent "send_message")
     ⟨fun _ => [], true, Except.ok (), Except.ok (), [], Except.ok (),
      fun _ => none⟩ (by decide)⟩

end WaServer
